import Mathlib

/-!
# Verification of the Spurs post-match survey pipeline

A shallow embedding of the pure data transformations of the
`spurs_survey` package (files `models.py`, `results.py`, `survey.py`,
`formations.py`, `archive.py`, `match_data.py`), together with theorems
settling the specification claims about them.

Modelling conventions:
* Python `int` is modelled as `ℤ` (or `ℕ` for counts), Python `float`
  as `ℚ` where only field arithmetic occurs and as `ℝ` where a square
  root is taken (`numpy.std`); floating point rounding is idealised
  away, as the specification itself speaks of exact textbook values.
* A Google-Forms response dict (question title → answer string) is an
  association list `List (String × String)`; `dict.get` is
  `List.lookup`.
* Dynamically typed dict values (only needed for
  `detect_missing_fields`, which inspects a raw JSON-like dict) are the
  inductive `PyVal`.
* Python's `sorted` on strings is `List.insertionSort (· ≤ ·)` for the
  lexicographic (code-point) order on `String`; the sorted lists in
  question are duplicate-free, so any correct sort produces the same
  list and stability is irrelevant.
-/

namespace SpursSurvey

/-! ## Data model (`models.py`) -/

/-- Model of `PlayerInfo` — a player in a match lineup. -/
structure PlayerInfo where
  name : String
  position : String
  image_path : Option String := none
  shirt_number : Option ℤ := none
deriving DecidableEq, Repr

/-- Model of `SubstitutionEvent` — a substitution that occurred during a match. -/
structure SubstitutionEvent where
  player_in : String
  player_out : String
  minute : ℤ
deriving DecidableEq, Repr

/-- Model of `MatchData` — all data for a single Tottenham match. -/
structure MatchData where
  match_id : ℤ
  home_team : String
  away_team : String
  competition : String
  matchday : String
  date : String
  venue : String
  formation : String
  coach : String
  starting_players : List PlayerInfo := []
  substitutions : List SubstitutionEvent := []
  is_tottenham_home : Bool := true
  home_score : Option ℤ := none
  away_score : Option ℤ := none
deriving DecidableEq, Repr

/-- Model of `RatingStats` — mean and standard deviation for a rating.
The mean involves only field operations and is kept in `ℚ`; the
standard deviation is a square root and lives in `ℝ`. -/
structure RatingStats where
  mean : ℚ
  std_dev : ℝ

/-- Model of `PlayerRating` — compiled rating data for a single player. -/
structure PlayerRating where
  name : String
  position : String
  image_path : Option String
  rating : RatingStats
  is_starter : Bool
  goals : ℤ := 0
  assists : ℤ := 0
  own_goals : ℤ := 0
  is_motm : Bool := false

/-- Model of `MatchMetadata` — identifying information for a match. -/
structure MatchMetadata where
  opponent : String
  competition : String
  matchday : String
  date : String
  venue : String
  home_score : ℤ
  away_score : ℤ
  is_tottenham_home : Bool
deriving DecidableEq, Repr

/-- Model of `CoachRatings` — tactical ratings for the coach. -/
structure CoachRatings where
  name : String
  starting_eleven : RatingStats
  on_field_tactics : RatingStats
  substitutions : RatingStats

/-- Model of `CompiledResults` — full compiled survey results for a match. -/
structure CompiledResults where
  match_id : ℤ
  match_metadata : MatchMetadata
  team_rating : RatingStats
  opponent_rating : RatingStats
  referee_rating : RatingStats
  coach_ratings : CoachRatings
  overall_rating : ℚ
  starting_player_ratings : List PlayerRating := []
  substitute_player_ratings : List PlayerRating := []
  motm_winners : List String := []
  total_responses : ℕ := 0
  formation : String := "4-3-3"

/-! ## Formation layouts (`formations.py`) -/

/-- Table `FORMATION_LAYOUTS` — each formation maps to a list of
`(position_label, player_count)` pairs, ordered front to back. -/
def FORMATION_LAYOUTS : List (String × List (String × ℕ)) :=
  [ ("4-3-3", [("FW", 3), ("MF", 3), ("DF", 4), ("GK", 1)]),
    ("4-4-2", [("FW", 2), ("MF", 4), ("DF", 4), ("GK", 1)]),
    ("3-5-2", [("FW", 2), ("MF", 5), ("DF", 3), ("GK", 1)]),
    ("4-2-3-1", [("FW", 1), ("AM", 3), ("DM", 2), ("DF", 4), ("GK", 1)]),
    ("3-4-3", [("FW", 3), ("MF", 4), ("DF", 3), ("GK", 1)]),
    ("5-3-2", [("FW", 2), ("MF", 3), ("DF", 5), ("GK", 1)]),
    ("4-1-4-1", [("FW", 1), ("MF", 4), ("DM", 1), ("DF", 4), ("GK", 1)]) ]

/-! ## Rating statistics (`results.py`, `_compute_rating_stats`) -/

/-- Arithmetic mean of a list, as computed by `np.mean` (sum divided by
length; the empty list gives `0/0 = 0` in `ℚ`, a case callers never
reach). -/
def listMean (values : List ℚ) : ℚ := values.sum / values.length

/-- Population variance (`ddof = 0`): mean of the squared deviations
from the mean, the quantity under the square root in `np.std`. -/
def listPopVariance (values : List ℚ) : ℚ :=
  ((values.map fun v => (v - listMean values) ^ 2).sum) / values.length

/-- Function `_compute_rating_stats` — mean and population standard deviation
(`np.std` with `ddof=0`) of a list of ratings, after the
`dtype=float` conversion (modelled by working in `ℚ`). -/
noncomputable def _compute_rating_stats (values : List ℚ) : RatingStats :=
  { mean := listMean values
    std_dev := Real.sqrt ((listPopVariance values : ℚ) : ℝ) }

/-! ## Man-of-the-match winner determination (`results.py`,
`_determine_motm_winners`) -/

/-- A raw survey response: a dict keyed by question title with the
respondent's answer as the value. -/
abbrev Response := List (String × String)

/-- The valid-vote collection loop of `_determine_motm_winners`: for
each response take the answer under `motm_key` and keep its stripped
form when the vote is a non-blank string (a non-empty string whose
strip is non-empty strips to a non-empty string, so the Python
condition `vote and vote.strip()` is equivalent to
`vote.strip() != ""`). -/
def _motm_votes (responses : List Response) (motm_key : String) :
    List String :=
  responses.filterMap fun resp =>
    match List.lookup motm_key resp with
    | some vote => if vote.trim = "" then none else some vote.trim
    | none => none

/-- Function `_determine_motm_winners` — the player(s) with the most MOTM
votes, handling ties: count the valid votes, take every distinct name
whose count equals the maximum count, and return them sorted
ascending (Python `sorted`). -/
def _determine_motm_winners (responses : List Response)
    (motm_key : String) : List String :=
  let votes := _motm_votes responses motm_key
  if votes = [] then []
  else
    let names := votes.dedup
    let max_count := (names.map fun n => votes.count n).foldr max 0
    List.insertionSort (· ≤ ·)
      (names.filter fun n => votes.count n = max_count)

/-! ## Survey structure builder (`survey.py`, `build_survey_structure`) -/

/-- Rating scale descriptions shown once at the top of the survey. -/
def RATING_SCALE_DESCRIPTION : String :=
  "Rating Scale Guide:\n" ++
  "0 — Worst Performance of the Year Contender\n" ++
  "1 — Abysmal\n" ++
  "2 — Very Poor\n" ++
  "3 — Poor\n" ++
  "4 — Below Average\n" ++
  "5 — Average\n" ++
  "6 — Above Average\n" ++
  "7 — Good\n" ++
  "8 — Very Good\n" ++
  "9 — Excellent\n" ++
  "10 — Perfect Performance"

/-- Integer choices 0–10 used for every rating question. -/
def RATING_CHOICES : List String := (List.range 11).map toString

def SECTION_RATING_SCALE : String := "rating_scale_description"
def SECTION_TEAM_RATING : String := "team_rating"
def SECTION_OPPONENT_RATING : String := "opponent_rating"
def SECTION_COACH_STARTING_XI : String := "coach_starting_eleven"
def SECTION_COACH_TACTICS : String := "coach_on_field_tactics"
def SECTION_COACH_SUBS : String := "coach_substitutions"
def SECTION_REFEREE_RATING : String := "referee_rating"
def SECTION_STARTER_RATING : String := "starter_rating"
def SECTION_SUB_RATING : String := "sub_rating"
def SECTION_MOTM : String := "motm_vote"

/-- One survey section dict: a `"type"` tag, a title, the answer
choices, and — where the source dict has them — a description (header
section) and a player name (player sections). -/
structure SurveySection where
  type : String
  title : String
  description : String := ""
  choices : List String
  player_name : Option String := none
deriving DecidableEq, Repr

/-- Function `build_survey_structure` — builds the survey section definitions
from match data: the fixed header/team/opponent/coach/referee
sections, one rating section per starter, one per substitute that
came on (in substitution-event order), then the man-of-the-match
vote. -/
def build_survey_structure (md : MatchData) : List SurveySection :=
  let opponent := if md.is_tottenham_home then md.away_team else md.home_team
  let coach_name := if md.coach = "" then "Manager" else md.coach
  let sub_names := md.substitutions.map fun s => s.player_in
  let all_player_names :=
    (md.starting_players.map fun p => p.name) ++ sub_names
  [ { type := SECTION_RATING_SCALE, title := "Rating Scale",
      description := RATING_SCALE_DESCRIPTION, choices := [] },
    { type := SECTION_TEAM_RATING,
      title := "Tottenham Hotspur — Team Rating",
      choices := RATING_CHOICES },
    { type := SECTION_OPPONENT_RATING,
      title := opponent ++ " — Team Rating", choices := RATING_CHOICES },
    { type := SECTION_COACH_STARTING_XI,
      title := coach_name ++ " — Starting Eleven Selection",
      choices := RATING_CHOICES },
    { type := SECTION_COACH_TACTICS,
      title := coach_name ++ " — On-Field Tactics",
      choices := RATING_CHOICES },
    { type := SECTION_COACH_SUBS,
      title := coach_name ++ " — Substitution Decisions",
      choices := RATING_CHOICES },
    { type := SECTION_REFEREE_RATING, title := "Referee Rating",
      choices := RATING_CHOICES } ]
  ++ (md.starting_players.map fun p =>
      { type := SECTION_STARTER_RATING, title := p.name ++ " — Rating",
        choices := RATING_CHOICES, player_name := some p.name })
  ++ (sub_names.map fun n =>
      { type := SECTION_SUB_RATING, title := n ++ " — Rating",
        choices := RATING_CHOICES, player_name := some n })
  ++ [ { type := SECTION_MOTM, title := "Man of the Match",
         choices := all_player_names } ]

/-- A concrete complete `MatchData` (11 starters, one substitution)
used to instantiate universally quantified theorems. -/
def witnessMatch : MatchData :=
  { match_id := 1
    home_team := "Arsenal"
    away_team := "Tottenham Hotspur"
    competition := "Premier League"
    matchday := "Round 5"
    date := "2025-09-13"
    venue := "Emirates Stadium"
    formation := "4-3-3"
    coach := "Thomas Frank"
    starting_players := (List.range 11).map fun i =>
      { name := "Player " ++ toString i, position := "MF" }
    substitutions := [{ player_in := "Sub 1", player_out := "Player 5",
                        minute := 60 }]
    is_tottenham_home := false
    home_score := some 1
    away_score := some 2 }

/-! ## Results compiler (`results.py`, `_extract_ratings` and
`compile_responses`) -/

/-- Python `int(raw)` on a string: strip surrounding whitespace, allow
one optional sign, then decimal digits; anything else raises
`ValueError` (modelled as `none`). -/
def parsePyInt (s : String) : Option ℤ :=
  let t := s.trim
  let core := if t.startsWith "-" || t.startsWith "+" then t.drop 1 else t
  match core.toNat? with
  | some n => some (if t.startsWith "-" then -(n : ℤ) else (n : ℤ))
  | none => none

/-- One iteration of the `_extract_ratings` loop body: the value a
single response contributes for `key`, skipping missing answers,
empty strings, and unparsable values. -/
def _extract_one (resp : Response) (key : String) : Option ℤ :=
  match List.lookup key resp with
  | none => none
  | some raw => if raw = "" then none else parsePyInt raw

/-- Function `_extract_ratings` — pull integer ratings for `key` from response
dicts, skipping missing answers, empty strings, and unparsable
values, in input order. -/
def _extract_ratings (responses : List Response) (key : String) : List ℤ :=
  responses.filterMap fun resp => _extract_one resp key

/-- The `_stats_for` closure inside `compile_responses`: extract the
ratings for a question title and compute their statistics, returning
the zero `RatingStats` when no values survive. -/
noncomputable def _stats_for (responses : List Response) (key : String) :
    RatingStats :=
  let vals := _extract_ratings responses key
  if vals = [] then { mean := 0, std_dev := 0 }
  else _compute_rating_stats (vals.map fun v => (v : ℚ))

/-- Function `compile_responses` — compile raw survey responses into structured
statistics: per-entity ratings keyed by the exact survey question
titles, per-player ratings, overall rating, MOTM winners, and the
total response count. -/
noncomputable def compile_responses (responses : List Response)
    (md : MatchData) : CompiledResults :=
  let opponent := if md.is_tottenham_home then md.away_team else md.home_team
  let coach_name := if md.coach = "" then "Manager" else md.coach
  let team_key := "Tottenham Hotspur — Team Rating"
  let opponent_key := opponent ++ " — Team Rating"
  let referee_key := "Referee Rating"
  let coach_xi_key := coach_name ++ " — Starting Eleven Selection"
  let coach_tactics_key := coach_name ++ " — On-Field Tactics"
  let coach_subs_key := coach_name ++ " — Substitution Decisions"
  let motm_key := "Man of the Match"
  let team_rating := _stats_for responses team_key
  let opponent_rating := _stats_for responses opponent_key
  let referee_rating := _stats_for responses referee_key
  let coach_ratings : CoachRatings :=
    { name := coach_name
      starting_eleven := _stats_for responses coach_xi_key
      on_field_tactics := _stats_for responses coach_tactics_key
      substitutions := _stats_for responses coach_subs_key }
  let sub_names := md.substitutions.map fun s => s.player_in
  let starting_player_ratings : List PlayerRating :=
    md.starting_players.map fun p =>
      { name := p.name, position := p.position, image_path := p.image_path
        rating := _stats_for responses (p.name ++ " — Rating")
        is_starter := true }
  let substitute_player_ratings : List PlayerRating :=
    sub_names.map fun n =>
      { name := n, position := "SUB", image_path := none
        rating := _stats_for responses (n ++ " — Rating")
        is_starter := false }
  let all_player_means :=
    (starting_player_ratings.map fun pr => pr.rating.mean)
      ++ (substitute_player_ratings.map fun pr => pr.rating.mean)
  let overall_rating : ℚ :=
    if all_player_means = [] then 0
    else all_player_means.sum / all_player_means.length
  let motm_winners := _determine_motm_winners responses motm_key
  let metadata : MatchMetadata :=
    { opponent := opponent, competition := md.competition
      matchday := md.matchday, date := md.date, venue := md.venue
      home_score := md.home_score.getD 0
      away_score := md.away_score.getD 0
      is_tottenham_home := md.is_tottenham_home }
  { match_id := md.match_id
    match_metadata := metadata
    team_rating := team_rating
    opponent_rating := opponent_rating
    referee_rating := referee_rating
    coach_ratings := coach_ratings
    overall_rating := overall_rating
    starting_player_ratings := starting_player_ratings.map fun pr =>
      { pr with is_motm := motm_winners.contains pr.name }
    substitute_player_ratings := substitute_player_ratings.map fun pr =>
      { pr with is_motm := motm_winners.contains pr.name }
    motm_winners := motm_winners
    total_responses := responses.length
    formation := md.formation }

/-! ## Storage dictionaries (`models.py` `to_dict`/`from_dict`,
`storage.py` `save_results`/`load_results`)

Each `to_dict` emits a JSON object with a fixed set of keys; such an
object is modelled as a structure whose fields are named after those
keys. A key that `from_dict` reads through `dict.get` with a default
is given an `Option` type, with `none` standing for an absent (or
JSON-`null`) key, so the default logic of `from_dict` is preserved. -/

/-- The JSON object written for a `RatingStats`. -/
structure RatingStatsDict where
  mean : ℚ
  std_dev : ℝ

/-- The JSON object written for a `PlayerRating`. -/
structure PlayerRatingDict where
  name : String
  position : String
  image_path : Option String
  rating : RatingStatsDict
  is_starter : Bool
  goals : Option ℤ
  assists : Option ℤ
  own_goals : Option ℤ
  is_motm : Option Bool

/-- The JSON object written for a `MatchMetadata`. -/
structure MatchMetadataDict where
  opponent : String
  competition : String
  matchday : String
  date : String
  venue : String
  home_score : ℤ
  away_score : ℤ
  is_tottenham_home : Bool

/-- The JSON object written for a `CoachRatings`. -/
structure CoachRatingsDict where
  name : String
  starting_eleven : RatingStatsDict
  on_field_tactics : RatingStatsDict
  substitutions : RatingStatsDict

/-- The JSON object written for a `CompiledResults`
(the content of `results.json`). -/
structure CompiledResultsDict where
  match_id : ℤ
  metadata : MatchMetadataDict
  team_rating : RatingStatsDict
  opponent_rating : RatingStatsDict
  referee_rating : RatingStatsDict
  coach_ratings : CoachRatingsDict
  overall_rating : ℚ
  starting_players : Option (List PlayerRatingDict)
  substitute_players : Option (List PlayerRatingDict)
  motm_winners : Option (List String)
  total_responses : Option ℕ
  formation : Option String

def RatingStats.to_dict (r : RatingStats) : RatingStatsDict :=
  { mean := r.mean, std_dev := r.std_dev }

def RatingStats.from_dict (d : RatingStatsDict) : RatingStats :=
  { mean := d.mean, std_dev := d.std_dev }

def PlayerRating.to_dict (p : PlayerRating) : PlayerRatingDict :=
  { name := p.name, position := p.position, image_path := p.image_path
    rating := p.rating.to_dict, is_starter := p.is_starter
    goals := some p.goals, assists := some p.assists
    own_goals := some p.own_goals, is_motm := some p.is_motm }

def PlayerRating.from_dict (d : PlayerRatingDict) : PlayerRating :=
  { name := d.name, position := d.position, image_path := d.image_path
    rating := RatingStats.from_dict d.rating, is_starter := d.is_starter
    goals := d.goals.getD 0, assists := d.assists.getD 0
    own_goals := d.own_goals.getD 0, is_motm := d.is_motm.getD false }

def MatchMetadata.to_dict (m : MatchMetadata) : MatchMetadataDict :=
  { opponent := m.opponent, competition := m.competition
    matchday := m.matchday, date := m.date, venue := m.venue
    home_score := m.home_score, away_score := m.away_score
    is_tottenham_home := m.is_tottenham_home }

def MatchMetadata.from_dict (d : MatchMetadataDict) : MatchMetadata :=
  { opponent := d.opponent, competition := d.competition
    matchday := d.matchday, date := d.date, venue := d.venue
    home_score := d.home_score, away_score := d.away_score
    is_tottenham_home := d.is_tottenham_home }

def CoachRatings.to_dict (c : CoachRatings) : CoachRatingsDict :=
  { name := c.name, starting_eleven := c.starting_eleven.to_dict
    on_field_tactics := c.on_field_tactics.to_dict
    substitutions := c.substitutions.to_dict }

def CoachRatings.from_dict (d : CoachRatingsDict) : CoachRatings :=
  { name := d.name
    starting_eleven := RatingStats.from_dict d.starting_eleven
    on_field_tactics := RatingStats.from_dict d.on_field_tactics
    substitutions := RatingStats.from_dict d.substitutions }

def CompiledResults.to_dict (r : CompiledResults) : CompiledResultsDict :=
  { match_id := r.match_id
    metadata := r.match_metadata.to_dict
    team_rating := r.team_rating.to_dict
    opponent_rating := r.opponent_rating.to_dict
    referee_rating := r.referee_rating.to_dict
    coach_ratings := r.coach_ratings.to_dict
    overall_rating := r.overall_rating
    starting_players := some (r.starting_player_ratings.map
      PlayerRating.to_dict)
    substitute_players := some (r.substitute_player_ratings.map
      PlayerRating.to_dict)
    motm_winners := some r.motm_winners
    total_responses := some r.total_responses
    formation := some r.formation }

def CompiledResults.from_dict (d : CompiledResultsDict) : CompiledResults :=
  { match_id := d.match_id
    match_metadata := MatchMetadata.from_dict d.metadata
    team_rating := RatingStats.from_dict d.team_rating
    opponent_rating := RatingStats.from_dict d.opponent_rating
    referee_rating := RatingStats.from_dict d.referee_rating
    coach_ratings := CoachRatings.from_dict d.coach_ratings
    overall_rating := d.overall_rating
    starting_player_ratings := (d.starting_players.getD []).map
      PlayerRating.from_dict
    substitute_player_ratings := (d.substitute_players.getD []).map
      PlayerRating.from_dict
    motm_winners := d.motm_winners.getD []
    total_responses := d.total_responses.getD 0
    formation := d.formation.getD "4-3-3" }

/-! ## Archive filtering (`archive.py`, `filter_matches`) -/

/-- One entry of the `matches.json` archive index. -/
structure IndexEntry where
  match_id : ℤ
  opponent : String
  competition : String
  matchday : String
  date : String
  venue : String
  home_score : ℤ
  away_score : ℤ
  is_tottenham_home : Bool
deriving DecidableEq, Repr

/-- Python truthiness of an optionally supplied string keyword
argument (default `None`): `None` and `""` are falsy. -/
def truthyOpt : Option String → Bool
  | none => false
  | some s => s ≠ ""

/-- Function `filter_matches` — filter match entries by optional criteria
(exact-match opponent, exact-match competition, inclusive string
date-range bounds), keeping input order; each `if crit and cond:
continue` guard of the source loop is one branch of the predicate. -/
def filter_matches (entries : List IndexEntry)
    (opponent competition date_from date_to : Option String) :
    List IndexEntry :=
  entries.filter fun m =>
    if truthyOpt opponent && m.opponent ≠ opponent.getD "" then false
    else if truthyOpt competition && m.competition ≠ competition.getD ""
      then false
    else if truthyOpt date_from && m.date < date_from.getD "" then false
    else if truthyOpt date_to && date_to.getD "" < m.date then false
    else true

/-- Statement of the specification's filter contract, written from the
spec's words: an entry qualifies when it satisfies every supplied
criterion — equal opponent and competition where supplied, and a date
within the inclusive supplied bounds. -/
def satisfiesAllCriteria (m : IndexEntry)
    (opponent competition date_from date_to : Option String) : Bool :=
  (match opponent with
   | none => true
   | some s => m.opponent = s) &&
  (match competition with
   | none => true
   | some s => m.competition = s) &&
  (match date_from with
   | none => true
   | some s => s ≤ m.date) &&
  (match date_to with
   | none => true
   | some s => m.date ≤ s)

/-! ## Missing-field detection (`match_data.py`,
`detect_missing_fields`) -/

/-- A dynamically typed Python/JSON value, as far as
`detect_missing_fields` can observe one. -/
inductive PyVal where
  | vnone : PyVal
  | vstr : String → PyVal
  | vint : ℤ → PyVal
  | vbool : Bool → PyVal
  | vlist : List PyVal → PyVal

/-- Fields that must be non-empty / non-None for a valid MatchData. -/
def _REQUIRED_FIELDS : List String :=
  [ "home_team", "away_team", "competition", "matchday",
    "date", "venue", "formation", "coach" ]

/-- The source's emptiness test `value is None or value == "" or
value == []` (in Python an `==` comparison across these types is
`False`, so only the matching constructors can succeed). -/
def isMissingValue : PyVal → Bool
  | .vnone => true
  | .vstr s => s = ""
  | .vlist xs => xs.isEmpty
  | _ => false

/-- Python truthiness of a `PyVal`, for the `if not players:` check. -/
def pyFalsy : PyVal → Bool
  | .vnone => true
  | .vstr s => s = ""
  | .vint n => n = 0
  | .vbool b => !b
  | .vlist xs => xs.isEmpty

/-- Function `detect_missing_fields` — the list of required field names that
are missing or empty; also flags `starting_players` when there are
not "at least some" starting players (`if not players`). -/
def detect_missing_fields (data : List (String × PyVal)) : List String :=
  let missing := _REQUIRED_FIELDS.filter fun f =>
    isMissingValue ((List.lookup f data).getD .vnone)
  let players := (List.lookup "starting_players" data).getD (.vlist [])
  if pyFalsy players then missing ++ ["starting_players"] else missing

/-- A complete raw match-data dict except that `starting_players`
holds only 10 entries: every required scalar field is non-empty, so
the claim that a non-11-player lineup is flagged is tested in
isolation. -/
def tenPlayerData : List (String × PyVal) :=
  [ ("home_team", .vstr "Arsenal"),
    ("away_team", .vstr "Tottenham Hotspur"),
    ("competition", .vstr "Premier League"),
    ("matchday", .vstr "Round 5"),
    ("date", .vstr "2025-09-13"),
    ("venue", .vstr "Emirates Stadium"),
    ("formation", .vstr "4-3-3"),
    ("coach", .vstr "Thomas Frank"),
    ("starting_players",
      .vlist (List.replicate 10 (.vstr "Player"))) ]

/-! ## Theorems -/

/-- C7: for every formation key present in `FORMATION_LAYOUTS`, the
per-row player counts of that formation sum to exactly 11. -/
theorem formation_layouts_row_counts_sum_eleven
    (key : String) (rows : List (String × ℕ))
    (h : (key, rows) ∈ FORMATION_LAYOUTS) :
    (rows.map Prod.snd).sum = 11 := by
  fin_cases h <;> rfl

/-- Witness for C7 at the concrete formation `4-2-3-1`. -/
theorem formation_layouts_row_counts_sum_eleven_witness :
    (("4-2-3-1", [("FW", 1), ("AM", 3), ("DM", 2), ("DF", 4), ("GK", 1)])
        ∈ FORMATION_LAYOUTS) ∧
    (([("FW", 1), ("AM", 3), ("DM", 2), ("DF", 4), ("GK", 1)]
        : List (String × ℕ)).map Prod.snd).sum = 11 :=
  ⟨by decide,
   formation_layouts_row_counts_sum_eleven "4-2-3-1" _ (by decide)⟩

theorem listPopVariance_nonneg (values : List ℚ) :
    0 ≤ listPopVariance values := by
  unfold listPopVariance
  apply div_nonneg
  · exact List.sum_nonneg fun x hx => by
      obtain ⟨v, _, rfl⟩ := List.mem_map.mp hx
      positivity
  · positivity

/-- C1: for every non-empty list of integers with values in `[0,10]`,
`_compute_rating_stats` returns a `RatingStats` whose mean is the
arithmetic mean and whose `std_dev` is the population standard
deviation (dividing by `N`, not `N-1`), i.e. the non-negative real
whose square is the mean squared deviation from the mean; a
single-element input yields `std_dev = 0`. -/
theorem compute_rating_stats_population_statistics
    (l : List ℤ) (hne : l ≠ []) (hrange : ∀ v ∈ l, 0 ≤ v ∧ v ≤ 10) :
    (_compute_rating_stats (l.map fun v => (v : ℚ))).mean
        = ((l.map fun v => (v : ℚ)).sum) / (l.map fun v => (v : ℚ)).length ∧
    ((_compute_rating_stats (l.map fun v => (v : ℚ))).std_dev) ^ 2
        = (((((l.map fun v => (v : ℚ)).map fun v =>
            (v - ((l.map fun v => (v : ℚ)).sum)
              / (l.map fun v => (v : ℚ)).length) ^ 2).sum)
          / (l.map fun v => (v : ℚ)).length : ℚ) : ℝ) ∧
    0 ≤ (_compute_rating_stats (l.map fun v => (v : ℚ))).std_dev ∧
    (∀ x : ℤ, l = [x] →
      (_compute_rating_stats (l.map fun v => (v : ℚ))).std_dev = 0) := by
  refine ⟨rfl, ?_, ?_, ?_⟩
  · exact Real.sq_sqrt
      (x := ((listPopVariance (l.map fun v => (v : ℚ)) : ℚ) : ℝ))
      (by exact_mod_cast listPopVariance_nonneg _)
  · exact Real.sqrt_nonneg _
  · intro x hx
    subst hx
    simp [_compute_rating_stats, listPopVariance, listMean]

/-- Witness for C1 at the input `[7, 5]` from the specification's
worked example. -/
theorem compute_rating_stats_population_statistics_witness :
    (([7, 5] : List ℤ) ≠ [] ∧ ∀ v ∈ ([7, 5] : List ℤ), 0 ≤ v ∧ v ≤ 10) ∧
    ((_compute_rating_stats (([7, 5] : List ℤ).map fun v => (v : ℚ))).mean
        = ((([7, 5] : List ℤ).map fun v => (v : ℚ)).sum)
          / (([7, 5] : List ℤ).map fun v => (v : ℚ)).length ∧
    ((_compute_rating_stats
        (([7, 5] : List ℤ).map fun v => (v : ℚ))).std_dev) ^ 2
        = (((((([7, 5] : List ℤ).map fun v => (v : ℚ)).map fun v =>
            (v - ((([7, 5] : List ℤ).map fun v => (v : ℚ)).sum)
              / (([7, 5] : List ℤ).map fun v => (v : ℚ)).length) ^ 2).sum)
          / (([7, 5] : List ℤ).map fun v => (v : ℚ)).length : ℚ) : ℝ) ∧
    0 ≤ (_compute_rating_stats
        (([7, 5] : List ℤ).map fun v => (v : ℚ))).std_dev ∧
    (∀ x : ℤ, ([7, 5] : List ℤ) = [x] →
      (_compute_rating_stats
          (([7, 5] : List ℤ).map fun v => (v : ℚ))).std_dev = 0)) :=
  ⟨⟨by decide, by decide⟩,
   compute_rating_stats_population_statistics [7, 5] (by decide) (by decide)⟩

theorem le_foldr_max {a : ℕ} {l : List ℕ} (h : a ∈ l) :
    a ≤ l.foldr max 0 := by
  induction l with
  | nil => cases h
  | cons b t ih =>
      rcases List.mem_cons.mp h with rfl | hmem
      · exact le_max_left _ _
      · exact le_trans (ih hmem) (le_max_right _ _)

theorem foldr_max_mem (l : List ℕ) (h : l ≠ []) : l.foldr max 0 ∈ l := by
  induction l with
  | nil => exact absurd rfl h
  | cons b t ih =>
      cases t with
      | nil => simp
      | cons c u =>
          rcases max_choice b ((c :: u).foldr max 0) with hb | ht
          · rw [List.foldr_cons, hb]
            exact List.mem_cons_self _ _
          · rw [List.foldr_cons, ht]
            exact List.mem_cons_of_mem _ (ih (by simp))

/-- C2: `_determine_motm_winners` returns the empty list when there
are no valid (non-blank, non-missing) votes, and otherwise returns
exactly the distinct vote names whose count is maximal among all
counted votes, as a duplicate-free list sorted lexicographically
ascending; ties of any size are all included. -/
theorem determine_motm_winners_sorted_max_tie_set
    (responses : List Response) (motm_key : String) :
    (_motm_votes responses motm_key = [] →
      _determine_motm_winners responses motm_key = []) ∧
    List.Sorted (· ≤ ·) (_determine_motm_winners responses motm_key) ∧
    (_determine_motm_winners responses motm_key).Nodup ∧
    (∀ n : String,
      n ∈ _determine_motm_winners responses motm_key ↔
        n ∈ _motm_votes responses motm_key ∧
        ∀ m ∈ _motm_votes responses motm_key,
          (_motm_votes responses motm_key).count m
            ≤ (_motm_votes responses motm_key).count n) := by
  set votes := _motm_votes responses motm_key with hv
  by_cases he : votes = []
  · refine ⟨fun _ => ?_, ?_, ?_, ?_⟩ <;>
      simp [_determine_motm_winners, ← hv, he, List.Sorted]
  · have hwin : _determine_motm_winners responses motm_key
        = List.insertionSort (· ≤ ·)
            (votes.dedup.filter fun n =>
              votes.count n
                = (votes.dedup.map fun n => votes.count n).foldr max 0) := by
      simp [_determine_motm_winners, ← hv, he]
    set mc := (votes.dedup.map fun n => votes.count n).foldr max 0 with hmc
    have hperm := List.perm_insertionSort (α := String) (· ≤ ·)
      (votes.dedup.filter fun n => votes.count n = mc)
    refine ⟨fun h => absurd h he, ?_, ?_, ?_⟩
    · rw [hwin]
      exact List.sorted_insertionSort _ _
    · rw [hwin]
      exact (hperm.nodup_iff).mpr ((List.nodup_dedup votes).filter _)
    · intro n
      rw [hwin, hperm.mem_iff, List.mem_filter]
      constructor
      · rintro ⟨hn, hcnt⟩
        have hcnt' : votes.count n = mc := of_decide_eq_true hcnt
        refine ⟨List.mem_dedup.mp hn, fun m hm => ?_⟩
        have hmle : votes.count m ≤ mc :=
          le_foldr_max (List.mem_map.mpr ⟨m, List.mem_dedup.mpr hm, rfl⟩)
        omega
      · rintro ⟨hn, hall⟩
        have hle : votes.count n ≤ mc :=
          le_foldr_max (List.mem_map.mpr ⟨n, List.mem_dedup.mpr hn, rfl⟩)
        have hne2 : (votes.dedup.map fun n => votes.count n) ≠ [] := by
          simp [List.dedup_eq_nil, he]
        obtain ⟨m, hmmem, hmeq⟩ :=
          List.mem_map.mp (hmc ▸ foldr_max_mem _ hne2)
        have hge : mc ≤ votes.count n :=
          hmeq ▸ hall m (List.mem_dedup.mp hmmem)
        exact ⟨List.mem_dedup.mpr hn,
          decide_eq_true (le_antisymm hle hge)⟩

/-- Witness for C2 at the specification's worked example: votes
`["A", "A", "B"]` under the key `"Man of the Match"`. -/
theorem determine_motm_winners_sorted_max_tie_set_witness :
    (_motm_votes
        [[("Man of the Match", "A")], [("Man of the Match", "A")],
         [("Man of the Match", "B")]] "Man of the Match" = [] →
      _determine_motm_winners
        [[("Man of the Match", "A")], [("Man of the Match", "A")],
         [("Man of the Match", "B")]] "Man of the Match" = []) ∧
    List.Sorted (· ≤ ·)
      (_determine_motm_winners
        [[("Man of the Match", "A")], [("Man of the Match", "A")],
         [("Man of the Match", "B")]] "Man of the Match") ∧
    (_determine_motm_winners
        [[("Man of the Match", "A")], [("Man of the Match", "A")],
         [("Man of the Match", "B")]] "Man of the Match").Nodup ∧
    (∀ n : String,
      n ∈ _determine_motm_winners
            [[("Man of the Match", "A")], [("Man of the Match", "A")],
             [("Man of the Match", "B")]] "Man of the Match" ↔
        n ∈ _motm_votes
              [[("Man of the Match", "A")], [("Man of the Match", "A")],
               [("Man of the Match", "B")]] "Man of the Match" ∧
        ∀ m ∈ _motm_votes
                [[("Man of the Match", "A")], [("Man of the Match", "A")],
                 [("Man of the Match", "B")]] "Man of the Match",
          (_motm_votes
              [[("Man of the Match", "A")], [("Man of the Match", "A")],
               [("Man of the Match", "B")]] "Man of the Match").count m
            ≤ (_motm_votes
                [[("Man of the Match", "A")], [("Man of the Match", "A")],
                 [("Man of the Match", "B")]] "Man of the Match").count n) :=
  determine_motm_winners_sorted_max_tie_set
    [[("Man of the Match", "A")], [("Man of the Match", "A")],
     [("Man of the Match", "B")]] "Man of the Match"

/-- C3: for a `MatchData` with 11 starting players and `N`
substitutions, the survey has `7 + 11 + N + 1` sections whose types
are the 7 fixed kinds, then 11 starter-rating kinds (in roster order,
witnessed by the `player_name` fields), then `N` sub-rating kinds (in
substitution-event order; absent entirely when `N = 0`), then exactly
one man-of-the-match section whose choices are the starting-player
names followed by the substitute-in names, with no de-duplication. -/
theorem build_survey_structure_shape
    (md : MatchData) (h11 : md.starting_players.length = 11) :
    (build_survey_structure md).length
        = 7 + 11 + md.substitutions.length + 1 ∧
    (build_survey_structure md).map (fun s => s.type)
        = [SECTION_RATING_SCALE, SECTION_TEAM_RATING,
           SECTION_OPPONENT_RATING, SECTION_COACH_STARTING_XI,
           SECTION_COACH_TACTICS, SECTION_COACH_SUBS,
           SECTION_REFEREE_RATING]
          ++ List.replicate 11 SECTION_STARTER_RATING
          ++ List.replicate md.substitutions.length SECTION_SUB_RATING
          ++ [SECTION_MOTM] ∧
    (md.substitutions = [] →
      SECTION_SUB_RATING ∉ (build_survey_structure md).map fun s => s.type) ∧
    (build_survey_structure md).map (fun s => s.player_name)
        = List.replicate 7 none
          ++ md.starting_players.map (fun p => some p.name)
          ++ md.substitutions.map (fun s => some s.player_in)
          ++ [none] ∧
    ((build_survey_structure md).getLast?).map (fun s => s.choices)
        = some ((md.starting_players.map fun p => p.name)
            ++ md.substitutions.map fun s => s.player_in) := by
  refine ⟨?_, ?_, ?_, ?_, ?_⟩
  · simp [build_survey_structure, h11]
    omega
  · rw [← h11]
    simp [build_survey_structure, Function.comp_def, List.map_const']
  · intro hsubs
    simp [build_survey_structure, hsubs, SECTION_RATING_SCALE,
      SECTION_TEAM_RATING, SECTION_OPPONENT_RATING,
      SECTION_COACH_STARTING_XI, SECTION_COACH_TACTICS,
      SECTION_COACH_SUBS, SECTION_REFEREE_RATING,
      SECTION_STARTER_RATING, SECTION_SUB_RATING, SECTION_MOTM]
  · simp [build_survey_structure, Function.comp_def]
  · simp only [build_survey_structure]
    rw [List.getLast?_concat]
    rfl

/-- Witness for C3 at a concrete `MatchData` with 11 starters and one
substitution. -/
theorem build_survey_structure_shape_witness :
    (witnessMatch.starting_players.length = 11) ∧
    ((build_survey_structure witnessMatch).length
        = 7 + 11 + witnessMatch.substitutions.length + 1 ∧
    (build_survey_structure witnessMatch).map (fun s => s.type)
        = [SECTION_RATING_SCALE, SECTION_TEAM_RATING,
           SECTION_OPPONENT_RATING, SECTION_COACH_STARTING_XI,
           SECTION_COACH_TACTICS, SECTION_COACH_SUBS,
           SECTION_REFEREE_RATING]
          ++ List.replicate 11 SECTION_STARTER_RATING
          ++ List.replicate witnessMatch.substitutions.length
              SECTION_SUB_RATING
          ++ [SECTION_MOTM] ∧
    (witnessMatch.substitutions = [] →
      SECTION_SUB_RATING
        ∉ (build_survey_structure witnessMatch).map fun s => s.type) ∧
    (build_survey_structure witnessMatch).map (fun s => s.player_name)
        = List.replicate 7 none
          ++ witnessMatch.starting_players.map (fun p => some p.name)
          ++ witnessMatch.substitutions.map (fun s => some s.player_in)
          ++ [none] ∧
    ((build_survey_structure witnessMatch).getLast?).map (fun s => s.choices)
        = some ((witnessMatch.starting_players.map fun p => p.name)
            ++ witnessMatch.substitutions.map fun s => s.player_in)) :=
  ⟨rfl, build_survey_structure_shape witnessMatch rfl⟩

theorem extract_ratings_filterMap (responses : List Response) (key : String) :
    _extract_ratings responses key
      = ((responses.filterMap fun r => List.lookup key r).filter
          fun s => s ≠ "").filterMap parsePyInt := by
  induction responses with
  | nil => rfl
  | cons r rest ih =>
      cases h : List.lookup key r with
      | none =>
          simp [_extract_ratings, _extract_one, h] at ih ⊢
          exact ih
      | some raw =>
          by_cases hraw : raw = ""
          · simp [_extract_ratings, _extract_one, h, hraw] at ih ⊢
            exact ih
          · cases hp : parsePyInt raw with
            | none =>
                simp [_extract_ratings, _extract_one, h, hraw, hp] at ih ⊢
                exact ih
            | some v =>
                simp [_extract_ratings, _extract_one, h, hraw, hp] at ih ⊢
                exact ih

/-- C4: `compile_responses` records `total_responses` as the count of
input response records; for any question title, the extracted ratings
are exactly the answers present under that exact title, minus empty
strings and unparsable values, in order; a title with no surviving
values gets the zero `RatingStats`; and the entity/player rating
fields are the statistics of the values extracted under the exact
survey question titles. -/
theorem compile_responses_extraction_contract
    (responses : List Response) (md : MatchData) :
    (compile_responses responses md).total_responses = responses.length ∧
    (∀ key : String, _extract_ratings responses key
      = ((responses.filterMap fun r => List.lookup key r).filter
          fun s => s ≠ "").filterMap parsePyInt) ∧
    (∀ key : String, _extract_ratings responses key = [] →
      _stats_for responses key = { mean := 0, std_dev := 0 }) ∧
    (∀ key : String, _extract_ratings responses key ≠ [] →
      _stats_for responses key
        = _compute_rating_stats
            ((_extract_ratings responses key).map fun v => (v : ℚ))) ∧
    (compile_responses responses md).team_rating
      = _stats_for responses "Tottenham Hotspur — Team Rating" ∧
    (compile_responses responses md).referee_rating
      = _stats_for responses "Referee Rating" ∧
    ((compile_responses responses md).starting_player_ratings.map
        fun pr => pr.rating)
      = md.starting_players.map
          (fun p => _stats_for responses (p.name ++ " — Rating")) ∧
    ((compile_responses responses md).substitute_player_ratings.map
        fun pr => pr.rating)
      = md.substitutions.map
          (fun s => _stats_for responses (s.player_in ++ " — Rating")) := by
  refine ⟨?_, extract_ratings_filterMap responses, ?_, ?_, ?_, ?_, ?_, ?_⟩
  · simp [compile_responses]
  · intro key h
    simp [_stats_for, h]
  · intro key h
    simp [_stats_for, h]
  · simp [compile_responses]
  · simp [compile_responses]
  · simp [compile_responses, Function.comp_def]
  · simp [compile_responses, Function.comp_def]

/-- Witness for C4 at one concrete response set and match. -/
theorem compile_responses_extraction_contract_witness :
    (compile_responses [[("Referee Rating", "7")]] witnessMatch).total_responses
        = 1 ∧
    (_extract_ratings [[("Referee Rating", "7")]] "Man of the Match"
      = (([[("Referee Rating", "7")]].filterMap
            fun r => List.lookup "Man of the Match" r).filter
          fun s => s ≠ "").filterMap parsePyInt) ∧
    (_extract_ratings [[("Referee Rating", "7")]] "Man of the Match" = [] →
      _stats_for [[("Referee Rating", "7")]] "Man of the Match"
        = { mean := 0, std_dev := 0 }) ∧
    (compile_responses [[("Referee Rating", "7")]] witnessMatch).team_rating
      = _stats_for [[("Referee Rating", "7")]]
          "Tottenham Hotspur — Team Rating" ∧
    (compile_responses [[("Referee Rating", "7")]] witnessMatch).referee_rating
      = _stats_for [[("Referee Rating", "7")]] "Referee Rating" :=
  ⟨(compile_responses_extraction_contract [[("Referee Rating", "7")]]
      witnessMatch).1,
   (compile_responses_extraction_contract [[("Referee Rating", "7")]]
      witnessMatch).2.1 "Man of the Match",
   (compile_responses_extraction_contract [[("Referee Rating", "7")]]
      witnessMatch).2.2.1 "Man of the Match",
   (compile_responses_extraction_contract [[("Referee Rating", "7")]]
      witnessMatch).2.2.2.2.1,
   (compile_responses_extraction_contract [[("Referee Rating", "7")]]
      witnessMatch).2.2.2.2.2.1⟩

/-- C5: `overall_rating` as produced by `compile_responses` equals
the arithmetic mean of the rating means of all players (starters plus
substitutes), and equals `0` when there are no players at all. -/
theorem compile_responses_overall_rating_is_mean_of_player_means
    (responses : List Response) (md : MatchData) :
    (compile_responses responses md).overall_rating
      = (if (((compile_responses responses md).starting_player_ratings
              ++ (compile_responses responses md).substitute_player_ratings).map
                fun pr => pr.rating.mean)
            = [] then 0
         else ((((compile_responses responses md).starting_player_ratings
              ++ (compile_responses responses md).substitute_player_ratings).map
                fun pr => pr.rating.mean).sum)
           / ((((compile_responses responses md).starting_player_ratings
              ++ (compile_responses responses md).substitute_player_ratings).map
                fun pr => pr.rating.mean).length)) := by
  have hmap : (((compile_responses responses md).starting_player_ratings
      ++ (compile_responses responses md).substitute_player_ratings).map
        fun pr => pr.rating.mean)
      = (md.starting_players.map fun p =>
          (_stats_for responses (p.name ++ " — Rating")).mean)
        ++ (md.substitutions.map fun s =>
          (_stats_for responses (s.player_in ++ " — Rating")).mean) := by
    simp [compile_responses, Function.comp_def]
  rw [hmap]
  simp [compile_responses, Function.comp_def]

theorem ratingStats_roundtrip (r : RatingStats) :
    RatingStats.from_dict (RatingStats.to_dict r) = r := rfl

theorem playerRating_roundtrip (p : PlayerRating) :
    PlayerRating.from_dict (PlayerRating.to_dict p) = p := rfl

theorem playerRating_map_roundtrip (l : List PlayerRating) :
    (l.map PlayerRating.to_dict).map PlayerRating.from_dict = l := by
  rw [List.map_map]
  have h : PlayerRating.from_dict ∘ PlayerRating.to_dict = id :=
    funext fun p => playerRating_roundtrip p
  rw [h, List.map_id]

theorem map_comp_playerRating_roundtrip (l : List PlayerRating) :
    l.map (PlayerRating.from_dict ∘ PlayerRating.to_dict) = l := by
  rw [← List.map_map]
  exact playerRating_map_roundtrip l

/-- C6: serializing a `CompiledResults` to its storage dictionary and
deserializing it back yields the original value
(`from_dict ∘ to_dict = id`), so a `results.json` written by
`save_results` is read back unchanged by `load_results`. -/
theorem compiled_results_storage_roundtrip (r : CompiledResults) :
    CompiledResults.from_dict (CompiledResults.to_dict r) = r := by
  simp [CompiledResults.from_dict, CompiledResults.to_dict,
    MatchMetadata.from_dict, MatchMetadata.to_dict,
    CoachRatings.from_dict, CoachRatings.to_dict,
    ratingStats_roundtrip, playerRating_map_roundtrip,
    map_comp_playerRating_roundtrip]

theorem filter_matches_pred_eq
    (m : IndexEntry) (opponent competition date_from date_to : Option String)
    (ho : opponent ≠ some "") (hc : competition ≠ some "")
    (hdf : date_from ≠ some "") (hdt : date_to ≠ some "") :
    (if truthyOpt opponent && m.opponent ≠ opponent.getD "" then false
     else if truthyOpt competition && m.competition ≠ competition.getD ""
       then false
     else if truthyOpt date_from && m.date < date_from.getD "" then false
     else if truthyOpt date_to && date_to.getD "" < m.date then false
     else true)
      = satisfiesAllCriteria m opponent competition date_from date_to := by
  have hsplit : ∀ (a b c d : Bool),
      (if a then false else if b then false else if c then false
       else if d then false else true) = (!a && !b && !c && !d) := by
    decide
  rw [hsplit]
  unfold satisfiesAllCriteria
  rcases opponent with _ | so <;> rcases competition with _ | sc <;>
    rcases date_from with _ | sf <;> rcases date_to with _ | st <;>
    simp_all [truthyOpt, ← not_lt, decide_not]

/-- C8: with every supplied criterion meaningful (not the empty
string), `filter_matches` returns exactly the input entries that
satisfy all supplied criteria — this single `List.filter` equation
gives no false exclusions, no false inclusions and preservation of
input order — and membership in the output is equivalent to
membership in the input plus satisfaction of all criteria. -/
theorem filter_matches_exactly_satisfying_subset
    (entries : List IndexEntry)
    (opponent competition date_from date_to : Option String)
    (ho : opponent ≠ some "") (hc : competition ≠ some "")
    (hdf : date_from ≠ some "") (hdt : date_to ≠ some "") :
    filter_matches entries opponent competition date_from date_to
      = entries.filter (fun m =>
          satisfiesAllCriteria m opponent competition date_from date_to) ∧
    (∀ m : IndexEntry,
      m ∈ filter_matches entries opponent competition date_from date_to ↔
        m ∈ entries ∧
        satisfiesAllCriteria m opponent competition date_from date_to
          = true) := by
  have heq : filter_matches entries opponent competition date_from date_to
      = entries.filter (fun m =>
          satisfiesAllCriteria m opponent competition date_from date_to) :=
    List.filter_congr fun m _ =>
      filter_matches_pred_eq m opponent competition date_from date_to
        ho hc hdf hdt
  exact ⟨heq, fun m => by rw [heq, List.mem_filter]⟩

/-- Witness for C8 at a concrete entry list and criteria. -/
theorem filter_matches_exactly_satisfying_subset_witness :
    ((some "Arsenal" : Option String) ≠ some ""
      ∧ (none : Option String) ≠ some ""
      ∧ (some "2025-01-01" : Option String) ≠ some ""
      ∧ (none : Option String) ≠ some "") ∧
    (filter_matches
        [{ match_id := 1, opponent := "Arsenal",
           competition := "Premier League", matchday := "Round 5",
           date := "2025-09-13", venue := "Emirates Stadium",
           home_score := 1, away_score := 2, is_tottenham_home := false }]
        (some "Arsenal") none (some "2025-01-01") none
      = List.filter (fun m =>
          satisfiesAllCriteria m (some "Arsenal") none
            (some "2025-01-01") none)
          [{ match_id := 1, opponent := "Arsenal",
             competition := "Premier League", matchday := "Round 5",
             date := "2025-09-13", venue := "Emirates Stadium",
             home_score := 1, away_score := 2,
             is_tottenham_home := false }] ∧
    (∀ m : IndexEntry,
      m ∈ filter_matches
            [{ match_id := 1, opponent := "Arsenal",
               competition := "Premier League", matchday := "Round 5",
               date := "2025-09-13", venue := "Emirates Stadium",
               home_score := 1, away_score := 2,
               is_tottenham_home := false }]
            (some "Arsenal") none (some "2025-01-01") none ↔
        m ∈ [{ match_id := 1, opponent := "Arsenal",
               competition := "Premier League", matchday := "Round 5",
               date := "2025-09-13", venue := "Emirates Stadium",
               home_score := 1, away_score := 2,
               is_tottenham_home := false }] ∧
        satisfiesAllCriteria m (some "Arsenal") none
          (some "2025-01-01") none = true)) :=
  ⟨⟨by decide, by decide, by decide, by decide⟩,
   filter_matches_exactly_satisfying_subset _ _ _ _ _
     (by decide) (by decide) (by decide) (by decide)⟩

/-- C10: supplying the empty string as the opponent or competition
criterion of `filter_matches` applies no filtering for that
criterion — it behaves exactly as if the criterion had not been
supplied (`None`), so no entry is excluded by it. -/
theorem filter_matches_empty_string_criterion_is_no_filter
    (entries : List IndexEntry) :
    (∀ competition date_from date_to : Option String,
      filter_matches entries (some "") competition date_from date_to
        = filter_matches entries none competition date_from date_to) ∧
    (∀ opponent date_from date_to : Option String,
      filter_matches entries opponent (some "") date_from date_to
        = filter_matches entries opponent none date_from date_to) :=
  ⟨fun _ _ _ => rfl, fun _ _ _ => rfl⟩

theorem starting_players_not_required_scalar :
    "starting_players" ∉ _REQUIRED_FIELDS := by decide

/-- The claim that `detect_missing_fields` flags `starting_players`
whenever the list does not hold exactly 11 players is false: on a
complete dict whose `starting_players` list holds 10 entries, nothing
is flagged. -/
theorem detect_missing_fields_ten_players_not_flagged :
    ((List.lookup "starting_players" tenPlayerData).getD (.vlist [])
        = PyVal.vlist (List.replicate 10 (.vstr "Player"))) ∧
    (List.replicate 10 (PyVal.vstr "Player")).length ≠ 11 ∧
    detect_missing_fields tenPlayerData = [] ∧
    "starting_players" ∉ detect_missing_fields tenPlayerData := by
  have h : detect_missing_fields tenPlayerData = [] := rfl
  refine ⟨rfl, by decide, h, ?_⟩
  rw [h]
  exact List.not_mem_nil _

/-- C9 (amended): `detect_missing_fields` flags every required scalar
field whose value is `None`, an empty string, or an empty list, and
flags `starting_players` exactly when its value is falsy (in
particular when the player list is empty) — not whenever the list
does not hold exactly 11 players. -/
theorem detect_missing_fields_characterization
    (data : List (String × PyVal)) :
    ("starting_players" ∈ detect_missing_fields data ↔
      pyFalsy ((List.lookup "starting_players" data).getD (.vlist []))
        = true) ∧
    (∀ f ∈ _REQUIRED_FIELDS,
      (f ∈ detect_missing_fields data ↔
        isMissingValue ((List.lookup f data).getD .vnone) = true)) := by
  unfold detect_missing_fields
  constructor
  · by_cases hp : pyFalsy
        ((List.lookup "starting_players" data).getD (.vlist [])) = true
    · simp [hp]
    · simp only [Bool.not_eq_true] at hp
      simp only [hp, if_false, iff_false, Bool.false_eq_true]
      intro hmem
      exact starting_players_not_required_scalar
        (List.mem_filter.mp hmem).1
  · intro f hf
    have hfne : f ≠ "starting_players" := by
      intro h
      exact starting_players_not_required_scalar (h ▸ hf)
    by_cases hp : pyFalsy
        ((List.lookup "starting_players" data).getD (.vlist [])) = true
    · simp [hp, List.mem_filter, hf, hfne]
    · simp only [Bool.not_eq_true] at hp
      simp [hp, List.mem_filter, hf]

/-- Witness for C9's amended characterization at the concrete
ten-player dict and the required field `home_team`. -/
theorem detect_missing_fields_characterization_witness :
    ("home_team" ∈ _REQUIRED_FIELDS) ∧
    ("starting_players" ∈ detect_missing_fields tenPlayerData ↔
      pyFalsy ((List.lookup "starting_players" tenPlayerData).getD
          (.vlist [])) = true) ∧
    ("home_team" ∈ detect_missing_fields tenPlayerData ↔
      isMissingValue ((List.lookup "home_team" tenPlayerData).getD .vnone)
        = true) :=
  ⟨by decide,
   (detect_missing_fields_characterization tenPlayerData).1,
   (detect_missing_fields_characterization tenPlayerData).2
     "home_team" (by decide)⟩

end SpursSurvey
